import Mathlib

/-
Shallow embedding of the open_web_ui tool adapters (arXiv, ROR,
Semantic Scholar, US Congress, Yahoo Finance).  Python values are
modelled by an inductive JSON-like type; Python dicts are association
lists preserving insertion order; async network calls are modelled by a
transport oracle giving the outcome of each attempt; the host progress
sink is modelled by a presence flag, with every emitted status event
recorded in a trace; an exception escaping the adapter is modelled by
the Except.error case of the returned value.
-/

/-- Model of a Python/JSON value.  Dicts keep insertion order. -/
inductive PyVal where
  | none
  | str (s : String)
  | int (n : Int)
  | bool (b : Bool)
  | list (xs : List PyVal)
  | dict (kvs : List (String × PyVal))

/-- Python  v is None  as a boolean test. -/
def PyVal.isNone : PyVal → Bool
  | PyVal.none => true
  | _ => false

/-- One status event sent to the host progress sink.  The hidden field
is optional because some call sites omit the "hidden" key. -/
structure StatusEvent where
  description : String
  done : Bool
  hidden : Option Bool
deriving DecidableEq, Repr

/-- Outcome of one httpx GET/POST attempt: parsed JSON body on 2xx,
an HTTPStatusError for a non-2xx response, or a RequestError when no
response was received (connection failure, timeout). -/
inductive TransportOutcome where
  | ok (body : PyVal)
  | httpError (code : Nat)
  | reqError (msg : String)

/-- Trace of one adapter invocation: the value returned to the host
(.error e models an uncaught Python exception escaping the call),
the parameter mappings of the network requests performed, in order,
and the status events emitted, in order. -/
structure AdapterRun where
  ret : Except String PyVal
  calls : List (List (String × PyVal))
  events : List StatusEvent

/-- Python  d[k] = v  on an insertion-ordered dict: update in place if
the key exists, else append. -/
def dictSet : List (String × PyVal) → String → PyVal → List (String × PyVal)
  | [], k, v => [(k, v)]
  | (k', v') :: rest, k, v =>
      if k' = k then (k', v) :: rest else (k', v') :: dictSet rest k v

/-- Python  d.update(u)  on insertion-ordered dicts. -/
def dictUpDate (base upd : List (String × PyVal)) : List (String × PyVal) :=
  upd.foldl (fun acc kv => dictSet acc kv.1 kv.2) base

/-- Python  d.get(k) , first binding wins (keys are unique in real dicts). -/
def dictLookup (kvs : List (String × PyVal)) (k : String) : Option PyVal :=
  (kvs.find? (fun kv => kv.1 == k)).map (fun kv => kv.2)

/-- An Optional[str] argument as the PyVal it contributes. -/
def optStr : Option String → PyVal
  | Option.none => PyVal.none
  | some s => PyVal.str s

/-- An Optional[int] argument as the PyVal it contributes. -/
def optInt : Option Int → PyVal
  | Option.none => PyVal.none
  | some n => PyVal.int n

/-- Python truthiness of an Optional[str]: None and the empty string
are falsy. -/
def truthyStr : Option String → Bool
  | Option.none => false
  | some s => s ≠ ""

/-! ## Semantic Scholar tool (semantic_scholar_tool.py) -/

/-- The optional_params dict literal of Tools.fetch_paper, in source
order, with None-valued entries still present. -/
def ssOptionalParams (limit : Option Int) (fields publicationTypes openAccessPdf : Option String)
    (minCitationCount : Option Int) (publicationDateOrYear year venue fieldsOfStudy : Option String)
    (offset : Option Int) : List (String × PyVal) :=
  [("limit", optInt limit),
   ("fields", optStr fields),
   ("publicationTypes", optStr publicationTypes),
   ("openAccessPdf", optStr openAccessPdf),
   ("minCitationCount", optInt minCitationCount),
   ("publicationDateOrYear", optStr publicationDateOrYear),
   ("year", optStr year),
   ("venue", optStr venue),
   ("fieldsOfStudy", optStr fieldsOfStudy),
   ("offset", optInt offset)]

/-- Parameter assembly of Tools.fetch_paper:
params = dict with query, then params.update of the comprehension
keeping only entries whose value is not None. -/
def fetch_paper_params (query : String) (limit : Option Int)
    (fields publicationTypes openAccessPdf : Option String) (minCitationCount : Option Int)
    (publicationDateOrYear year venue fieldsOfStudy : Option String) (offset : Option Int) :
    List (String × PyVal) :=
  dictUpDate [("query", PyVal.str query)]
    ((ssOptionalParams limit fields publicationTypes openAccessPdf minCitationCount
        publicationDateOrYear year venue fieldsOfStudy offset).filter
      (fun kv => !kv.2.isNone))

/-- Tools.fetch_paper.  The event emitter is a required positional
argument supplied by the host, so status emission always happens.
The httpx GET is one attempt; HTTPStatusError and RequestError are
each caught and turned into an error dict. -/
def fetch_paper (oracle : TransportOutcome) (query : String) (limit : Option Int)
    (fields publicationTypes openAccessPdf : Option String) (minCitationCount : Option Int)
    (publicationDateOrYear year venue fieldsOfStudy : Option String) (offset : Option Int) :
    AdapterRun :=
  let params := fetch_paper_params query limit fields publicationTypes openAccessPdf
    minCitationCount publicationDateOrYear year venue fieldsOfStudy offset
  let startEv : StatusEvent := ⟨"Searching for papers...", false, some true⟩
  match oracle with
  | .ok body => ⟨.ok body, [params], [startEv]⟩
  | .httpError code =>
      ⟨.ok (.dict [("error", .str ("HTTP error: " ++ toString code))]), [params],
        [startEv, ⟨"HTTP error: " ++ toString code, true, Option.none⟩]⟩
  | .reqError m =>
      ⟨.ok (.dict [("error", .str ("Request error: " ++ m))]), [params],
        [startEv, ⟨"Request error: " ++ m, true, Option.none⟩]⟩

/-- Tools.fetch_papers_partial_match.  The except branch for
RequestError emits the status event but has no return statement, so
the Python function returns None in that case. -/
def fetch_papers_partial_match (oracle : TransportOutcome) (query : String) : AdapterRun :=
  let params : List (String × PyVal) := [("query", PyVal.str query)]
  let startEv : StatusEvent := ⟨"Searching for papers using partial match...", false, some true⟩
  match oracle with
  | .ok body => ⟨.ok body, [params], [startEv]⟩
  | .httpError code =>
      ⟨.ok (.dict [("error", .str ("HTTP error: " ++ toString code))]), [params],
        [startEv, ⟨"HTTP error: " ++ toString code, true, Option.none⟩]⟩
  | .reqError m =>
      ⟨.ok PyVal.none, [params],
        [startEv, ⟨"Request error: " ++ m, true, Option.none⟩]⟩

/-! ## Research Organization Registry tool (ror_tool.py) -/

/-- Tools.call_api of the ROR tool.  The start status event is guarded
by  if __event_emitter__: , but the two except handlers call
__event_emitter__ unconditionally, so when the emitter is absent (its
default is None) an error outcome makes the handler raise TypeError,
which escapes the adapter.  msg is the string interpolated into the
start event description. -/
def ror_call_api (emitterPresent : Bool) (msg : String) (oracle : TransportOutcome)
    (params : List (String × PyVal)) : AdapterRun :=
  let startEvs : List StatusEvent :=
    if emitterPresent then [⟨"Executing " ++ msg ++ " ROR query...", false, some true⟩] else []
  match oracle with
  | .ok body => ⟨.ok body, [params], startEvs⟩
  | .httpError code =>
      if emitterPresent then
        ⟨.ok (.dict [("error", .str ("HTTP error: " ++ toString code))]), [params],
          startEvs ++ [⟨"HTTP error: " ++ toString code, true, Option.none⟩]⟩
      else
        ⟨.error "TypeError: NoneType object is not callable", [params], startEvs⟩
  | .reqError m =>
      if emitterPresent then
        ⟨.ok (.dict [("error", .str ("Request error: " ++ m))]), [params],
          startEvs ++ [⟨"Request error: " ++ m, true, Option.none⟩]⟩
      else
        ⟨.error "TypeError: NoneType object is not callable", [params], startEvs⟩

/-- One  if x: filters.append(label + ":" + x)  step of Tools.query;
the appended item when the argument is truthy. -/
def filterItem (label : String) (v : Option String) : List String :=
  if truthyStr v then [label ++ ":" ++ v.getD ""] else []

/-- The filters list of Tools.query, in source order. -/
def rorFilters (status types country_code country_name continent_code continent_name :
    Option String) : List String :=
  filterItem "status" status ++ filterItem "types" types ++
  filterItem "country_code" country_code ++ filterItem "country_name" country_name ++
  filterItem "continent_code" continent_code ++ filterItem "continent_name" continent_name

/-- The params dict of Tools.query right after the
if organization: params["query"] = organization  step: present exactly
when the organization argument is truthy (non-None and non-empty). -/
def rorParams0 (organization : Option (List String)) : List (String × PyVal) :=
  match organization with
  | Option.none => []
  | some l => if l = [] then [] else [("query", PyVal.list (l.map PyVal.str))]

/-- Parameter assembly of Tools.query: params gets "query" when the
organization list is truthy (non-None and non-empty) and "filter" when
the filters list is non-empty, joined with commas. -/
def rorQueryParams (organization : Option (List String))
    (status types country_code country_name continent_code continent_name : Option String) :
    List (String × PyVal) :=
  let filters := rorFilters status types country_code country_name continent_code continent_name
  if filters = [] then rorParams0 organization
  else rorParams0 organization ++ [("filter", PyVal.str (String.intercalate "," filters))]

/-- The per-organization loop of Tools.query for a multi-element
organization list.  Faithful details: org_params aliases params, and
each iteration overwrites only its "query" key before the sub-call, so
the i-th request carries query = organization i with all other keys
unchanged; the sub-call is  call_api(org_params, __event_emitter__) ,
which binds the emitter to the msg parameter and leaves the emitter
parameter of call_api at its default None, so the sub-call emits no
start event and raises TypeError on any error outcome.  Returns the
accumulated results (or the escaped exception), the requests performed
and the events emitted. -/
def ror_multi (oracle : Nat → TransportOutcome) :
    List (String × PyVal) → List String → Nat →
    Except String (List PyVal) × List (List (String × PyVal)) × List StatusEvent
  | _, [], _ => (.ok [], [], [])
  | base, org :: rest, i =>
    let ps := dictSet base "query" (PyVal.str org)
    let run := ror_call_api false "" (oracle i) ps
    match run.ret with
    | .error e => (.error e, run.calls, run.events)
    | .ok v =>
      match ror_multi oracle ps rest (i + 1) with
      | (.error e, cs, es) => (.error e, run.calls ++ cs, run.events ++ es)
      | (.ok vs, cs, es) => (.ok (v :: vs), run.calls ++ cs, run.events ++ es)

/-- Tools.query of the ROR tool.  When the organization argument is a
list with more than one element the per-organization loop runs and the
results are wrapped as a dict with the single key "results"; otherwise
a single call_api with msg = "basic" is made with the emitter passed
correctly.  The transport oracle is indexed by the sequence number of
the network attempt within this invocation. -/
def ror_query (organization : Option (List String))
    (status types country_code country_name continent_code continent_name : Option String)
    (emitterPresent : Bool) (oracle : Nat → TransportOutcome) : AdapterRun :=
  let params := rorQueryParams organization status types country_code country_name
    continent_code continent_name
  match organization with
  | some l =>
    if l.length > 1 then
      match ror_multi oracle params l 0 with
      | (.ok results, cs, es) => ⟨.ok (.dict [("results", .list results)]), cs, es⟩
      | (.error e, cs, es) => ⟨.error e, cs, es⟩
    else ror_call_api emitterPresent "basic" (oracle 0) params
  | Option.none => ror_call_api emitterPresent "basic" (oracle 0) params

/-! ## US Congress tool (us_congress_tool.py) -/

/-- Numeric value of a digit string. -/
def digitsVal (cs : List Char) : Nat :=
  cs.foldl (fun acc c => acc * 10 + (c.toNat - 48)) 0

/-- Days in a month, with Gregorian leap years, as validated by the
datetime constructor that strptime builds. -/
def daysInMonth (y m : Nat) : Nat :=
  if m = 2 then
    if y % 4 = 0 && (y % 100 ≠ 0 || y % 400 = 0) then 29 else 28
  else if m = 4 || m = 6 || m = 9 || m = 11 then 30
  else 31

/-- Model of
datetime.datetime.strptime(s, "%Y-%m-%dT%H:%M:%SZ") succeeding:
the year is exactly four digits and at least 1 (the datetime
constructor rejects year 0), month/day/hour/minute/second are one or
two digits each within the ranges strptime and the datetime
constructor accept, and the alphabetic literals T and Z match
case-insensitively because _strptime compiles the format pattern with
re.IGNORECASE (the dash and colon separators must match exactly). -/
def parseDateTimeZ (s : String) : Bool :=
  let cs := s.toList
  let (y, r1) := cs.span Char.isDigit
  match r1 with
  | '-' :: r2 =>
    let (mo, r3) := r2.span Char.isDigit
    match r3 with
    | '-' :: r4 =>
      let (d, r5) := r4.span Char.isDigit
      match r5 with
      | tc :: r6 =>
        if tc = 'T' || tc = 't' then
          let (h, r7) := r6.span Char.isDigit
          match r7 with
          | ':' :: r8 =>
            let (mi, r9) := r8.span Char.isDigit
            match r9 with
            | ':' :: r10 =>
              let (se, r11) := r10.span Char.isDigit
              match r11 with
              | [zc] =>
                (zc = 'Z' || zc = 'z') &&
                y.length = 4 && 1 ≤ digitsVal y &&
                (mo.length = 1 || mo.length = 2) &&
                1 ≤ digitsVal mo && digitsVal mo ≤ 12 &&
                (d.length = 1 || d.length = 2) &&
                1 ≤ digitsVal d && digitsVal d ≤ daysInMonth (digitsVal y) (digitsVal mo) &&
                (h.length = 1 || h.length = 2) && digitsVal h ≤ 23 &&
                (mi.length = 1 || mi.length = 2) && digitsVal mi ≤ 59 &&
                (se.length = 1 || se.length = 2) && digitsVal se ≤ 59
              | _ => false
            | _ => false
          | _ => false
        else false
      | _ => false
    | _ => false
  | _ => false

/-- Tools.call_api of the US Congress tool.  The emitter is a required
positional argument.  A None endpoint short-circuits with an error dict
and no network call; otherwise params gains format and api_key entries
and one GET is attempted. -/
def congress_call_api (endpoint : Option String) (params : List (String × PyVal))
    (msg : String) (apiKey : Option String) (oracle : TransportOutcome) : AdapterRun :=
  match endpoint with
  | Option.none =>
      ⟨.ok (.dict [("error", .str "endpoint not supplied")]), [],
        [⟨"API call unsuccessful, model did not select an endpoint.", true, some false⟩]⟩
  | some _ =>
    let ps := dictSet (dictSet params "format" (.str "application/json")) "api_key" (optStr apiKey)
    let startEv : StatusEvent := ⟨"Searching for " ++ msg ++ "...", false, some true⟩
    match oracle with
    | .ok body => ⟨.ok body, [ps], [startEv]⟩
    | .httpError code =>
        ⟨.ok (.dict [("error", .str ("HTTP error: " ++ toString code))]), [ps],
          [startEv, ⟨"HTTP error: " ++ toString code, true, Option.none⟩]⟩
    | .reqError m =>
        ⟨.ok (.dict [("error", .str ("Request error: " ++ m))]), [ps],
          [startEv, ⟨"Request error: " ++ m, true, Option.none⟩]⟩

/-- One  if dt: try strptime / except: return None  block of
Tools.get_bills: a falsy argument leaves params unchanged, a parseable
one appends the entry, an unparseable one aborts (the Python function
prints and returns None). -/
def checkDateParam (key : String) (v : Option String) (ps : List (String × PyVal)) :
    Option (List (String × PyVal)) :=
  match v with
  | Option.none => some ps
  | some s =>
    if s = "" then some ps
    else if parseDateTimeZ s then some (ps ++ [(key, PyVal.str s)])
    else Option.none

/-- Tools.get_bills: offset and limit always serialized, the date
arguments validated with strptime (an unparseable one makes the whole
function return None before any network call), sort appended when
truthy, then call_api on endpoint "/bill" with msg "bills". -/
def congress_get_bills (offset limit : Int) (fromDateTime toDateTime sort : Option String)
    (apiKey : Option String) (oracle : TransportOutcome) : AdapterRun :=
  let params : List (String × PyVal) := [("offset", PyVal.int offset), ("limit", PyVal.int limit)]
  match checkDateParam "fromDateTime" fromDateTime params with
  | Option.none => ⟨.ok PyVal.none, [], []⟩
  | some ps1 =>
    match checkDateParam "toDateTime" toDateTime ps1 with
    | Option.none => ⟨.ok PyVal.none, [], []⟩
    | some ps2 =>
      let ps3 := if truthyStr sort then ps2 ++ [("sort", optStr sort)] else ps2
      congress_call_api (some "/bill") ps3 "bills" apiKey oracle

/-! ## arXiv tool (arxiv_tool.py) -/

/-- The UserValves model of the arXiv tool with its pydantic defaults. -/
structure ArxivValves where
  use_valves : Bool := false
  start : Int := 0
  max_results : Int := 10
  sort_by : String := "relevance"
  sort_order : String := "ascending"

/-- One parsed Atom feed entry, holding exactly the data the source
reads from it: each field is None when the attribute is missing (for
primary_category, also when its term sub-key is missing). -/
structure FeedEntry where
  entryId : Option String
  title : Option String
  summary : Option String
  published : Option String
  updated : Option String
  authors : Option (List String)
  tags : Option (List String)
  arxiv_doi : Option String
  arxiv_journal_ref : Option String
  arxiv_comment : Option String
  arxiv_primary_category_term : Option String
  arxiv_affiliation : Option String
  links : Option (List String)

/-- An optional list of strings as the PyVal it contributes. -/
def optStrList : Option (List String) → PyVal
  | Option.none => PyVal.none
  | some l => PyVal.list (l.map PyVal.str)

/-- The paper dict literal built for one feed entry in Tools.search,
in source key order, with None values still present. -/
def entryCandidate (e : FeedEntry) : List (String × PyVal) :=
  [("id", optStr e.entryId),
   ("title", optStr e.title),
   ("summary", optStr e.summary),
   ("published", optStr e.published),
   ("updated", optStr e.updated),
   ("authors", optStrList e.authors),
   ("categories", optStrList e.tags),
   ("doi", optStr e.arxiv_doi),
   ("journal_ref", optStr e.arxiv_journal_ref),
   ("comment", optStr e.arxiv_comment),
   ("primary_category", optStr e.arxiv_primary_category_term),
   ("affiliation", optStr e.arxiv_affiliation),
   ("links", optStrList e.links)]

/-- The record appended to papers for one entry:
{k: v for k, v in paper.items() if v is not None} — a top-level filter
of the candidate dict, values untouched. -/
def entryRecord (e : FeedEntry) : List (String × PyVal) :=
  (entryCandidate e).filter (fun kv => !kv.2.isNone)

/-- Parameter assembly of Tools.search: optional_params starts with
search_query and id_list; with use_valves on, the caller pagination
and sort arguments are added under keys start, max_results, sortBy and
sort_order (the last key differs from the default branch in the
source); with use_valves off, the valve defaults are added under keys
start, max_results, sortBy and sortOrder.  params then keeps only the
non-None entries, in insertion order. -/
def arxivOptionalParams (valves : ArxivValves) (search_query id_list : Option String)
    (start max_results sort_by sort_order : Option Int) : List (String × PyVal) :=
  [("search_query", optStr search_query), ("id_list", optStr id_list)] ++
  (if valves.use_valves then
    [("start", optInt start), ("max_results", optInt max_results),
     ("sortBy", optInt sort_by), ("sort_order", optInt sort_order)]
  else
    [("start", PyVal.int valves.start), ("max_results", PyVal.int valves.max_results),
     ("sortBy", PyVal.str valves.sort_by), ("sortOrder", PyVal.str valves.sort_order)])

def arxiv_params (valves : ArxivValves) (search_query id_list : Option String)
    (start max_results sort_by sort_order : Option Int) : List (String × PyVal) :=
  dictUpDate []
    ((arxivOptionalParams valves search_query id_list start max_results sort_by
        sort_order).filter (fun kv => !kv.2.isNone))

/-- Outcome of one feedparser.parse attempt: a list of feed entries,
or an exception raised inside the try block. -/
inductive FeedOutcome where
  | entries (es : List FeedEntry)
  | raise (msg : String)

/-- Trace of one Tools.search invocation of the arXiv tool: the value
the source serializes with json.dumps and returns, the number of
feedparser.parse attempts performed, and the status events emitted. -/
structure ArxivRun where
  ret : PyVal
  attempts : Nat
  events : List StatusEvent

/-- The  while attempt < self.max_retries  loop of Tools.search, with
fuel = max_retries - attempt.  A successful parse maps the entries to
their null-filtered records and returns; an exception emits a status
event, increments attempt and loops; an exhausted loop falls through
to the terminal error dict. -/
def arxiv_loop (oracle : Nat → FeedOutcome) : Nat → Nat → ArxivRun
  | _, 0 => ⟨.dict [("error", .str "Failed to fetch data after multiple attempts.")], 0, []⟩
  | attempt, fuel + 1 =>
    match oracle attempt with
    | .entries es => ⟨.list (es.map (fun e => .dict (entryRecord e))), 1, []⟩
    | .raise m =>
      let rest := arxiv_loop oracle (attempt + 1) fuel
      ⟨rest.ret, rest.attempts + 1, ⟨"Exception: " ++ m, false, some true⟩ :: rest.events⟩

/-- self.max_retries set in Tools.__init__ of the arXiv tool. -/
def arxivMaxRetries : Nat := 3

/-- Tools.search of the arXiv tool: build params, emit the start event
(whose description interpolates the params dict; the exact rendering
is not inspected by any claim and is abbreviated here), then run the
retry loop with max_retries = 3.  The oracle gives the outcome of each
feedparser.parse attempt, indexed from 0. -/
def arxiv_search (valves : ArxivValves) (oracle : Nat → FeedOutcome)
    (search_query id_list : Option String)
    (start max_results sort_by sort_order : Option Int) : ArxivRun :=
  let _params := arxiv_params valves search_query id_list start max_results sort_by sort_order
  let startEv : StatusEvent :=
    ⟨"Searching ArXiv with the following parameters", false, some true⟩
  let run := arxiv_loop oracle 0 arxivMaxRetries
  ⟨run.ret, run.attempts, startEv :: run.events⟩

/-! ## Yahoo Finance tool (yfinance_tool.py) -/

/-- The UserValves model of the Yahoo Finance tool with its defaults. -/
structure YfValves where
  include_dividends : Bool := true
  include_splits : Bool := true
  auto_adjust : Bool := false
  include_prepost : Bool := false

/-- Outcome of the provider call made for one ticker (t.history or the
requested attribute): the data already in JSON-able form (the
make_json_serializable pass is the identity on such values), or an
exception raised inside the try block. -/
inductive YfOutcome where
  | ok (data : PyVal)
  | exn (msg : String)

/-- The four kwargs entries always present for a history request. -/
def yfBaseKwargs (v : YfValves) (interval : String) : List (String × PyVal) :=
  [("interval", PyVal.str interval),
   ("actions", PyVal.bool (v.include_dividends || v.include_splits)),
   ("auto_adjust", PyVal.bool v.auto_adjust),
   ("prepost", PyVal.bool v.include_prepost)]

/-- The kwargs passed to t.history for data_type = "history": the four
base entries, then the start/end/period combination chosen by the
if/elif chain of fetch_single_ticker, which tests Python truthiness of
the arguments in the fixed order start+end, start+period, end+period,
period, else a default two-day window computed from the current date
(passed in here as defaultStart and defaultEnd). -/
def historyKwargs (v : YfValves) (start_date end_date period : Option String)
    (interval : String) (defaultStart defaultEnd : String) : List (String × PyVal) :=
  let base := yfBaseKwargs v interval
  if truthyStr start_date && truthyStr end_date then
    base ++ [("start", optStr start_date), ("end", optStr end_date)]
  else if truthyStr start_date && truthyStr period then
    base ++ [("start", optStr start_date), ("period", optStr period)]
  else if truthyStr end_date && truthyStr period then
    base ++ [("end", optStr end_date), ("period", optStr period)]
  else if truthyStr period then
    base ++ [("period", optStr period)]
  else
    base ++ [("start", PyVal.str defaultStart), ("end", PyVal.str defaultEnd)]

/-- Trace of one fetch_single_ticker call: the returned single-entry
dict {ticker: data-or-error}, the kwargs of the t.history calls made
(zero or one), and the status events emitted. -/
structure YfSingleRun where
  result : List (String × PyVal)
  history_calls : List (List (String × PyVal))
  events : List StatusEvent

/-- The recognized non-history data types of fetch_single_ticker. -/
def yfKnownTypes : List String := ["info", "fast_info", "financials", "balance_sheet", "cashflow"]

/-- Tools.fetch_single_ticker.  The emitter is a required argument.
A history request builds kwargs and calls t.history; a known
non-history data_type calls the corresponding attribute; any other
data_type returns an error dict without touching the provider.  When
extra is truthy and the ticker object has that attribute (extraData is
its JSON-able value then), the data is wrapped as a main/extra dict.
Any exception inside the try block is caught and embedded as
{ticker: {"error": message}}. -/
def fetch_single_ticker (oracle : String → YfOutcome) (v : YfValves) (ticker : String)
    (start_date end_date : Option String) (data_type : String) (period : Option String)
    (interval : String) (extra : Option String) (extraData : Option PyVal)
    (defaultStart defaultEnd : String) : YfSingleRun :=
  let startEv : StatusEvent :=
    ⟨"Fetching " ++ ticker ++ " (" ++ data_type ++ ")...", false, Option.none⟩
  let finish : PyVal → YfSingleRun → YfSingleRun := fun d r =>
    let d2 :=
      if truthyStr extra then
        match extraData with
        | some ed => PyVal.dict [("main", d), (extra.getD "", ed)]
        | Option.none => d
      else d
    ⟨[(ticker, d2)], r.history_calls,
      r.events ++ [⟨"Fetched " ++ ticker ++ " successfully", true, Option.none⟩]⟩
  let failWith : String → List (List (String × PyVal)) → YfSingleRun := fun m hc =>
    ⟨[(ticker, .dict [("error", .str m)])], hc,
      [startEv, ⟨"Error fetching " ++ ticker ++ ": " ++ m, true, Option.none⟩]⟩
  if data_type = "history" then
    let kwargs := historyKwargs v start_date end_date period interval defaultStart defaultEnd
    match oracle ticker with
    | .ok d => finish d ⟨[], [kwargs], [startEv]⟩
    | .exn m => failWith m [kwargs]
  else if data_type ∈ yfKnownTypes then
    match oracle ticker with
    | .ok d => finish d ⟨[], [], [startEv]⟩
    | .exn m => failWith m []
  else
    ⟨[(ticker, .dict [("error", .str ("Unknown data_type \x27" ++ data_type ++ "\x27"))])], [],
      [startEv]⟩

/-- Trace of one fetch_yfinance_data call: the combined dict the
source serializes with json.dumps and returns, the tickers whose
sub-fetch was attempted, and the status events emitted. -/
structure YfRun where
  combined : List (String × PyVal)
  attempted : List String
  events : List StatusEvent

/-- Tools.fetch_yfinance_data: one fetch_single_ticker task per
ticker, all gathered (each task handles its own exceptions, so the
gather always completes with every sub-result), then the single-entry
sub-results merged into the combined dict with dict.update in list
order. -/
def fetch_yfinance_data (oracle : String → YfOutcome) (v : YfValves) (tickers : List String)
    (start_date end_date : Option String) (data_type : String) (period : Option String)
    (interval : String) (extra : Option String) (extraData : String → Option PyVal)
    (defaultStart defaultEnd : String) : YfRun :=
  let startEv : StatusEvent :=
    ⟨"Fetching " ++ data_type ++ " for " ++ toString tickers.length ++ " tickers...",
      false, Option.none⟩
  let runs := tickers.map (fun t =>
    fetch_single_ticker oracle v t start_date end_date data_type period interval extra
      (extraData t) defaultStart defaultEnd)
  let combined := runs.foldl (fun acc r => dictUpDate acc r.result) []
  ⟨combined, tickers,
    [startEv] ++ runs.flatMap (fun r => r.events) ++
      [⟨"Stock data retrieved successfully", true, some false⟩]⟩

/-! ## Dict lemmas -/

theorem dictLookup_dictSet_self (l : List (String × PyVal)) (k : String) (v : PyVal) :
    dictLookup (dictSet l k v) k = some v := by
  induction l with
  | nil => simp [dictSet, dictLookup]
  | cons kv rest ih =>
    by_cases h : kv.1 = k
    · simp [dictSet, dictLookup, h]
    · obtain ⟨k', v'⟩ := kv
      simp only at h
      simpa [dictSet, dictLookup, List.find?, h] using ih

theorem dictLookup_dictSet_ne (l : List (String × PyVal)) (k k' : String) (v : PyVal)
    (h : k' ≠ k) : dictLookup (dictSet l k v) k' = dictLookup l k' := by
  have hkk : (k == k') = false := by simpa using Ne.symm h
  induction l with
  | nil => simp [dictSet, dictLookup, List.find?, hkk]
  | cons kv rest ih =>
    obtain ⟨ka, va⟩ := kv
    by_cases hk : ka = k
    · subst hk
      simp [dictSet, dictLookup, List.find?, hkk]
    · by_cases hk2 : ka = k'
      · subst hk2
        simp [dictSet, dictLookup, List.find?, hk]
      · have hb : (ka == k') = false := by simpa using hk2
        simpa [dictSet, dictLookup, List.find?, hk, hb] using ih

theorem dictSet_dictSet_same (l : List (String × PyVal)) (k : String) (v w : PyVal) :
    dictSet (dictSet l k v) k w = dictSet l k w := by
  induction l with
  | nil => simp [dictSet]
  | cons kv rest ih =>
    obtain ⟨ka, va⟩ := kv
    by_cases hk : ka = k
    · simp [dictSet, hk]
    · simp [dictSet, hk, ih]

theorem keys_dictSet (l : List (String × PyVal)) (k : String) (v : PyVal) :
    (dictSet l k v).map Prod.fst =
      if k ∈ l.map Prod.fst then l.map Prod.fst else l.map Prod.fst ++ [k] := by
  induction l with
  | nil => simp [dictSet]
  | cons kv rest ih =>
    obtain ⟨ka, va⟩ := kv
    by_cases hk : ka = k
    · subst hk; simp [dictSet]
    · by_cases hmem : k ∈ rest.map Prod.fst <;>
        simp [dictSet, hk, ih, hmem, Ne.symm hk]

theorem foldl_dictSet_lookup (g : String → PyVal) (ts : List String)
    (acc : List (String × PyVal)) (t : String) :
    dictLookup (ts.foldl (fun a s => dictSet a s (g s)) acc) t =
      if t ∈ ts then some (g t) else dictLookup acc t := by
  induction ts generalizing acc with
  | nil => simp
  | cons s rest ih =>
    simp only [List.foldl_cons]
    rw [ih]
    by_cases hmem : t ∈ rest
    · simp [hmem]
    · by_cases hst : s = t
      · subst hst
        simp [hmem, dictLookup_dictSet_self]
      · simp [hmem, Ne.symm hst, dictLookup_dictSet_ne _ _ _ _ (Ne.symm hst)]

theorem foldl_dictSet_keys (g : String → PyVal) (ts : List String)
    (acc : List (String × PyVal)) (hnd : ts.Nodup)
    (hdisj : ∀ s ∈ ts, ¬ s ∈ acc.map Prod.fst) :
    (ts.foldl (fun a s => dictSet a s (g s)) acc).map Prod.fst = acc.map Prod.fst ++ ts := by
  induction ts generalizing acc with
  | nil => simp
  | cons s rest ih =>
    simp only [List.foldl_cons]
    have hs : ¬ s ∈ acc.map Prod.fst := hdisj s (by simp)
    have hkeys : (dictSet acc s (g s)).map Prod.fst = acc.map Prod.fst ++ [s] := by
      rw [keys_dictSet]; simp [hs]
    rw [ih _ (List.Nodup.of_cons hnd) ?_, hkeys]
    · simp
    · intro x hx
      rw [hkeys]
      simp only [List.mem_append, List.mem_singleton]
      rintro (h | h)
      · exact hdisj x (by simp [hx]) h
      · subst h
        exact (List.nodup_cons.mp hnd).1 hx

theorem dictSet_append_of_not_mem (l : List (String × PyVal)) (k : String) (v : PyVal)
    (h : ¬ k ∈ l.map Prod.fst) : dictSet l k v = l ++ [(k, v)] := by
  induction l with
  | nil => simp [dictSet]
  | cons kv rest ih =>
    simp only [List.map_cons, List.mem_cons] at h
    push_neg at h
    obtain ⟨h1, h2⟩ := h
    simp [dictSet, Ne.symm h1, ih h2]

theorem dictUpDate_append (upd : List (String × PyVal)) :
    ∀ base : List (String × PyVal),
      (∀ kv ∈ upd, ¬ kv.1 ∈ base.map Prod.fst) → (upd.map Prod.fst).Nodup →
      dictUpDate base upd = base ++ upd := by
  induction upd with
  | nil => intro base _ _; simp [dictUpDate]
  | cons kv rest ih =>
    intro base hdisj hnd
    have hstep : dictUpDate base (kv :: rest) = dictUpDate (dictSet base kv.1 kv.2) rest := rfl
    have h0 : dictSet base kv.1 kv.2 = base ++ [kv] :=
      dictSet_append_of_not_mem _ _ _ (hdisj kv (by simp))
    rw [hstep, h0, ih (base ++ [kv]) ?_ ((List.nodup_cons.mp hnd).2)]
    · simp
    · intro kv' hkv'
      simp only [List.map_append, List.mem_append, List.map_cons, List.map_nil,
        List.mem_singleton]
      rintro (h | h)
      · exact hdisj kv' (by simp [hkv']) h
      · exact (List.nodup_cons.mp hnd).1 (h ▸ List.mem_map_of_mem Prod.fst hkv')

/-! ## Claim theorems -/

/-- C1: the claim that every adapter operation returns either a valid
success payload or a tagged error value of shape {"error": ...}, with
no exception escaping the adapter boundary even when the progress sink
is absent and a transport-level error occurs, fails on the code: on a
transport-level error, fetch_papers_partial_match returns Python None
(its RequestError handler emits a status but has no return statement),
and the ROR call_api invoked without a progress sink raises TypeError
from inside its own error handler (the handler calls the absent
emitter unguarded), so the exception escapes to the host. -/
theorem c1_error_as_data_violations :
    (fetch_papers_partial_match (.reqError "Connection refused") "semanti").ret
        = .ok PyVal.none ∧
    (ror_call_api false "basic" (.reqError "Connection refused")
        [("query", PyVal.str "Oxford")]).ret
        = .error "TypeError: NoneType object is not callable" :=
  ⟨rfl, rfl⟩

/-- C2: if every feedparser attempt of the arXiv search raises, the
operation performs exactly max_retries = 3 attempts, never more, and
returns the tagged error value
{"error": "Failed to fetch data after multiple attempts."}. -/
theorem c2_arxiv_retries_exhausted (valves : ArxivValves) (oracle : Nat → FeedOutcome)
    (search_query id_list : Option String) (start max_results sort_by sort_order : Option Int)
    (h : ∀ n, ∃ m, oracle n = .raise m) :
    (arxiv_search valves oracle search_query id_list start max_results
        sort_by sort_order).attempts = 3 ∧
    (arxiv_search valves oracle search_query id_list start max_results
        sort_by sort_order).ret =
      .dict [("error", .str "Failed to fetch data after multiple attempts.")] := by
  obtain ⟨m0, h0⟩ := h 0
  obtain ⟨m1, h1⟩ := h 1
  obtain ⟨m2, h2⟩ := h 2
  constructor <;>
    simp [arxiv_search, arxivMaxRetries, arxiv_loop, h0, h1, h2]

/-- Witness for C2 at a concrete always-failing oracle. -/
theorem c2_arxiv_retries_exhausted_witness :
    (arxiv_search {} (fun _ => .raise "boom") Option.none Option.none
        Option.none Option.none Option.none Option.none).attempts = 3 ∧
    (arxiv_search {} (fun _ => .raise "boom") Option.none Option.none
        Option.none Option.none Option.none Option.none).ret =
      .dict [("error", .str "Failed to fetch data after multiple attempts.")] :=
  c2_arxiv_retries_exhausted {} (fun _ => .raise "boom") Option.none Option.none
    Option.none Option.none Option.none Option.none (fun _ => ⟨"boom", rfl⟩)

/-- C3: when the remote service answers with a non-2xx HTTP response,
the Semantic Scholar fetch_paper and fetch_papers_partial_match, the
ROR call_api (with a progress sink supplied) and the US Congress
call_api each perform exactly one network call and immediately return
the error value {"error": "HTTP error: <status_code>"}; the HTTP
status error is never retried. -/
theorem c3_http_status_error_one_shot (code : Nat) (query : String) (limit : Option Int)
    (fields publicationTypes openAccessPdf : Option String) (minCitationCount : Option Int)
    (publicationDateOrYear year venue fieldsOfStudy : Option String) (offset : Option Int)
    (msg : String) (params : List (String × PyVal)) (query2 : String)
    (ep msg2 : String) (params2 : List (String × PyVal)) (apiKey : Option String) :
    (fetch_paper (.httpError code) query limit fields publicationTypes openAccessPdf
        minCitationCount publicationDateOrYear year venue fieldsOfStudy offset).calls.length
      = 1 ∧
    (fetch_paper (.httpError code) query limit fields publicationTypes openAccessPdf
        minCitationCount publicationDateOrYear year venue fieldsOfStudy offset).ret
      = .ok (.dict [("error", .str ("HTTP error: " ++ toString code))]) ∧
    (ror_call_api true msg (.httpError code) params).calls.length = 1 ∧
    (ror_call_api true msg (.httpError code) params).ret
      = .ok (.dict [("error", .str ("HTTP error: " ++ toString code))]) ∧
    (fetch_papers_partial_match (.httpError code) query2).calls.length = 1 ∧
    (fetch_papers_partial_match (.httpError code) query2).ret
      = .ok (.dict [("error", .str ("HTTP error: " ++ toString code))]) ∧
    (congress_call_api (some ep) params2 msg2 apiKey (.httpError code)).calls.length = 1 ∧
    (congress_call_api (some ep) params2 msg2 apiKey (.httpError code)).ret
      = .ok (.dict [("error", .str ("HTTP error: " ++ toString code))]) := by
  refine ⟨rfl, rfl, ?_, ?_, rfl, rfl, rfl, rfl⟩ <;> simp [ror_call_api]

/-- Helper: every entry the ROR query step puts into params before the
filter step has a non-None value. -/
theorem rorParams0_no_none (organization : Option (List String)) :
    ∀ kv ∈ rorParams0 organization, kv.2.isNone = false := by
  intro kv hkv
  rcases organization with _ | l
  · simp [rorParams0] at hkv
  · by_cases hl : l = [] <;> simp [rorParams0, hl] at hkv
    rw [hkv]
    rfl

/-- C4 counterexample: the claim says the serialized request contains
exactly the non-None caller-supplied parameters, but the ROR query
builds its params with Python truthiness, so a caller-supplied empty
string (which is not the None sentinel) is also dropped: with
status = "" the outgoing params carry no filter entry at all. -/
theorem c4_counterexample :
    rorQueryParams (some ["Oxford"]) (some "") Option.none Option.none Option.none
        Option.none Option.none
      = [("query", PyVal.list [PyVal.str "Oxford"])] ∧
    some "" ≠ (Option.none : Option String) :=
  ⟨rfl, by decide⟩

/-- C4 amended: any optional parameter whose value is None is omitted
entirely from the outgoing request mapping and no null placeholder is
ever serialized; for the Semantic Scholar fetch_paper and the arXiv
search the serialized request contains exactly the non-None
caller-supplied (or valve-defaulted) parameters, while the ROR query
additionally omits falsy non-None values (empty strings and empty
lists), serializing exactly the truthy parameters. -/
theorem c4_unset_params_omitted_amended :
    (∀ (q : String) (limit : Option Int) (fields pt oap : Option String)
        (mcc : Option Int) (pdy yr ven fos : Option String) (off : Option Int)
        (k : String) (v : PyVal),
      (k, v) ∈ fetch_paper_params q limit fields pt oap mcc pdy yr ven fos off ↔
        ((k = "query" ∧ v = PyVal.str q) ∨
          ((k, v) ∈ ssOptionalParams limit fields pt oap mcc pdy yr ven fos off ∧
            v.isNone = false))) ∧
    (∀ (valves : ArxivValves) (sq il : Option String) (s mr sb so : Option Int)
        (k : String) (v : PyVal),
      (k, v) ∈ arxiv_params valves sq il s mr sb so ↔
        ((k, v) ∈ arxivOptionalParams valves sq il s mr sb so ∧ v.isNone = false)) ∧
    (∀ (label : String) (v : Option String), truthyStr v = false → filterItem label v = []) ∧
    (∀ (organization : Option (List String))
        (status types cc cn con conn : Option String),
      ∀ kv ∈ rorQueryParams organization status types cc cn con conn,
        kv.2.isNone = false) := by
  refine ⟨?_, ?_, ?_, ?_⟩
  · intro q limit fields pt oap mcc pdy yr ven fos off k v
    have h2 : (ssOptionalParams limit fields pt oap mcc pdy yr ven fos off).map Prod.fst
        = ["limit", "fields", "publicationTypes", "openAccessPdf", "minCitationCount",
           "publicationDateOrYear", "year", "venue", "fieldsOfStudy", "offset"] := rfl
    have hform : fetch_paper_params q limit fields pt oap mcc pdy yr ven fos off
        = [("query", PyVal.str q)] ++
          (ssOptionalParams limit fields pt oap mcc pdy yr ven fos off).filter
            (fun kv => !kv.2.isNone) := by
      unfold fetch_paper_params
      apply dictUpDate_append
      · intro kv hkv
        have h1 : kv.1 ∈ (ssOptionalParams limit fields pt oap mcc pdy yr ven
            fos off).map Prod.fst :=
          List.mem_map_of_mem Prod.fst (List.mem_filter.mp hkv).1
        rw [h2] at h1
        simp only [List.map_cons, List.map_nil, List.mem_singleton]
        intro hq
        rw [hq] at h1
        revert h1
        decide
      · refine ((List.filter_sublist _).map Prod.fst).nodup ?_
        rw [h2]
        decide
    rw [hform]
    simp [List.mem_filter, Prod.ext_iff]
  · intro valves sq il s mr sb so k v
    have hform : arxiv_params valves sq il s mr sb so
        = (arxivOptionalParams valves sq il s mr sb so).filter (fun kv => !kv.2.isNone) := by
      unfold arxiv_params
      rw [dictUpDate_append _ [] (by simp) ?_]
      · simp
      · refine ((List.filter_sublist _).map Prod.fst).nodup ?_
        by_cases huv : valves.use_valves <;>
          simp [arxivOptionalParams, huv]
    rw [hform]
    simp [List.mem_filter]
  · intro label v h
    simp [filterItem, h]
  · intro organization status types cc cn con conn kv hkv
    by_cases hf : rorFilters status types cc cn con conn = [] <;>
      simp only [rorQueryParams, hf, if_true, if_false, ite_true, ite_false] at hkv
    · exact rorParams0_no_none organization kv hkv
    · rcases List.mem_append.mp hkv with h | h
      · exact rorParams0_no_none organization kv h
      · simp only [List.mem_singleton] at h
        rw [h]
        rfl

/-- Witness for C4 at a concrete unset filter argument. -/
theorem c4_unset_params_omitted_amended_witness :
    filterItem "status" Option.none = [] :=
  c4_unset_params_omitted_amended.2.2.1 "status" Option.none rfl

/-- C6 counterexample: the claim says an unparseable fromDateTime makes
get_bills return a tagged invalid_argument error value as data, but on
the concrete input "not-a-date" the function returns a bare Python
None (with zero network calls and zero status events). -/
theorem c6_counterexample :
    congress_get_bills 0 10 (some "not-a-date") Option.none Option.none (some "KEY")
        (.ok (PyVal.dict []))
      = ⟨.ok PyVal.none, [], []⟩ := rfl

/-- C6 amended: for every get_bills call whose fromDateTime (or, with
fromDateTime passing its check, whose toDateTime) argument is truthy
and does not parse in the YYYY-MM-DDTHH:MM:SSZ format, the operation
returns a bare None (not a tagged error value, matching its own
docstring) and performs zero network calls and zero status emissions. -/
theorem c6_bad_date_returns_none_amended (offset limit : Int)
    (fromDateTime toDateTime sort apiKey : Option String) (oracle : TransportOutcome)
    (s : String) :
    (fromDateTime = some s → s ≠ "" → parseDateTimeZ s = false →
      congress_get_bills offset limit fromDateTime toDateTime sort apiKey oracle
        = ⟨.ok PyVal.none, [], []⟩) ∧
    (toDateTime = some s → s ≠ "" → parseDateTimeZ s = false →
      ∀ ps1, checkDateParam "fromDateTime" fromDateTime
          [("offset", PyVal.int offset), ("limit", PyVal.int limit)] = some ps1 →
      congress_get_bills offset limit fromDateTime toDateTime sort apiKey oracle
        = ⟨.ok PyVal.none, [], []⟩) := by
  constructor
  · intro h1 h2 h3
    subst h1
    simp [congress_get_bills, checkDateParam, h2, h3]
  · intro h1 h2 h3 ps1 hps1
    subst h1
    simp [congress_get_bills, hps1, checkDateParam, h2, h3]
    split <;> rfl

/-- Witness for C6 at a concrete out-of-range date. -/
theorem c6_bad_date_returns_none_amended_witness :
    congress_get_bills 0 10 (some "2026-13-01T00:00:00Z") Option.none Option.none
        (some "KEY") (.ok (PyVal.dict []))
      = ⟨.ok PyVal.none, [], []⟩ :=
  (c6_bad_date_returns_none_amended 0 10 (some "2026-13-01T00:00:00Z") Option.none
    Option.none (some "KEY") (.ok (PyVal.dict [])) "2026-13-01T00:00:00Z").1 rfl
    (by decide) (by decide)

/-- C7 counterexample: the claim says a conflicting combination such as
start_date, end_date and period all supplied fails with an
invalid_argument error, but the code silently resolves it: with all
three supplied the history kwargs carry start and end, period is
dropped, the provider call proceeds and the ticker data is returned. -/
theorem c7_counterexample :
    (fetch_single_ticker (fun _ => .ok (PyVal.str "DATA")) {} "AAPL"
        (some "2023-01-01") (some "2023-01-02") "history" (some "1mo") "1d"
        Option.none Option.none "d0" "d1").result
      = [("AAPL", PyVal.str "DATA")] ∧
    (fetch_single_ticker (fun _ => .ok (PyVal.str "DATA")) {} "AAPL"
        (some "2023-01-01") (some "2023-01-02") "history" (some "1mo") "1d"
        Option.none Option.none "d0" "d1").history_calls
      = [historyKwargs {} (some "2023-01-01") (some "2023-01-02") (some "1mo")
          "1d" "d0" "d1"] ∧
    dictLookup (historyKwargs {} (some "2023-01-01") (some "2023-01-02") (some "1mo")
        "1d" "d0" "d1") "period" = Option.none ∧
    dictLookup (historyKwargs {} (some "2023-01-01") (some "2023-01-02") (some "1mo")
        "1d" "d0" "d1") "start" = some (PyVal.str "2023-01-01") ∧
    dictLookup (historyKwargs {} (some "2023-01-01") (some "2023-01-02") (some "1mo")
        "1d" "d0" "d1") "end" = some (PyVal.str "2023-01-02") :=
  ⟨rfl, rfl, rfl, rfl, rfl⟩

/-- C7 amended: the history fetch deterministically selects the date
parameter combination in the fixed priority order start+end, then
start+period, then end+period, then period alone, else the default
two-day window; a conflicting combination such as all three supplied
is silently resolved by that order (start+end chosen, period dropped)
and passed to the provider, with no invalid_argument error. -/
theorem c7_history_priority_amended (v : YfValves) (sd ed p : Option String)
    (interval defaultStart defaultEnd : String) :
    (truthyStr sd = true → truthyStr ed = true →
      historyKwargs v sd ed p interval defaultStart defaultEnd
        = yfBaseKwargs v interval ++ [("start", optStr sd), ("end", optStr ed)]) ∧
    (truthyStr sd = true → truthyStr ed = false → truthyStr p = true →
      historyKwargs v sd ed p interval defaultStart defaultEnd
        = yfBaseKwargs v interval ++ [("start", optStr sd), ("period", optStr p)]) ∧
    (truthyStr sd = false → truthyStr ed = true → truthyStr p = true →
      historyKwargs v sd ed p interval defaultStart defaultEnd
        = yfBaseKwargs v interval ++ [("end", optStr ed), ("period", optStr p)]) ∧
    (truthyStr sd = false → truthyStr ed = false → truthyStr p = true →
      historyKwargs v sd ed p interval defaultStart defaultEnd
        = yfBaseKwargs v interval ++ [("period", optStr p)]) ∧
    (truthyStr p = false → truthyStr sd = false ∨ truthyStr ed = false →
      historyKwargs v sd ed p interval defaultStart defaultEnd
        = yfBaseKwargs v interval ++
            [("start", PyVal.str defaultStart), ("end", PyVal.str defaultEnd)]) ∧
    (∀ (oracle : String → YfOutcome) (ticker : String) (d : PyVal),
      oracle ticker = .ok d → truthyStr sd = true → truthyStr ed = true →
      (fetch_single_ticker oracle v ticker sd ed "history" p interval
          Option.none Option.none defaultStart defaultEnd).result = [(ticker, d)]) := by
  refine ⟨?_, ?_, ?_, ?_, ?_, ?_⟩
  · intro h1 h2
    simp [historyKwargs, h1, h2]
  · intro h1 h2 h3
    simp [historyKwargs, h1, h2, h3]
  · intro h1 h2 h3
    simp [historyKwargs, h1, h2, h3]
  · intro h1 h2 h3
    simp [historyKwargs, h1, h2, h3]
  · intro h1 h2
    rcases h2 with h2 | h2 <;> simp [historyKwargs, h1, h2]
  · intro oracle ticker d hok h1 h2
    simp [fetch_single_ticker, hok, truthyStr]

/-- C8: each arXiv search record contains exactly those keys of the
candidate record whose computed value is not None, each surviving key
keeping its value unchanged (so the filter never rewrites nested
values), and a successful first parse returns exactly the list of
null-filtered records for the feed entries in order. -/
theorem c8_arxiv_record_null_filter :
    (∀ (e : FeedEntry) (k : String) (v : PyVal),
      (k, v) ∈ entryRecord e ↔ ((k, v) ∈ entryCandidate e ∧ v.isNone = false)) ∧
    (∀ (valves : ArxivValves) (oracle : Nat → FeedOutcome) (sq il : Option String)
        (s mr sb so : Option Int) (es : List FeedEntry),
      oracle 0 = .entries es →
      (arxiv_search valves oracle sq il s mr sb so).ret
        = .list (es.map (fun e => .dict (entryRecord e)))) := by
  constructor
  · intro e k v
    simp [entryRecord, List.mem_filter]
  · intro valves oracle sq il s mr sb so es h
    simp [arxiv_search, arxivMaxRetries, arxiv_loop, h]

/-- Witness for C8 at a concrete one-entry feed whose entry has a
mixture of set and unset fields. -/
theorem c8_arxiv_record_null_filter_witness :
    (arxiv_search {} (fun _ => .entries [⟨some "http://arxiv.org/abs/1", some "T",
        Option.none, some "2020", Option.none, some ["A"], Option.none, Option.none,
        Option.none, Option.none, Option.none, Option.none, Option.none⟩])
      Option.none Option.none Option.none Option.none Option.none Option.none).ret
      = .list ([(⟨some "http://arxiv.org/abs/1", some "T", Option.none, some "2020",
          Option.none, some ["A"], Option.none, Option.none, Option.none, Option.none,
          Option.none, Option.none, Option.none⟩ : FeedEntry)].map
            (fun e => .dict (entryRecord e))) :=
  c8_arxiv_record_null_filter.2 {}
    (fun _ => .entries [⟨some "http://arxiv.org/abs/1", some "T", Option.none,
      some "2020", Option.none, some ["A"], Option.none, Option.none, Option.none,
      Option.none, Option.none, Option.none, Option.none⟩])
    Option.none Option.none Option.none Option.none Option.none Option.none _ rfl

/-- C9: the claim that, with a progress sink supplied, a done=false
status event is emitted before any network call — including each
per-organization sub-call of the ROR multi-organization query path —
fails on the code: in the multi-organization path, query passes the
emitter into the msg positional slot of call_api, so call_api sees its
emitter parameter as None and the whole run performs two network calls
while emitting no status event at all. -/
theorem c9_multi_org_no_status_event :
    (ror_query (some ["Oxford", "MIT"]) Option.none Option.none Option.none Option.none
        Option.none Option.none true (fun _ => .ok (PyVal.dict []))).events = [] ∧
    (ror_query (some ["Oxford", "MIT"]) Option.none Option.none Option.none Option.none
        Option.none Option.none true (fun _ => .ok (PyVal.dict []))).calls.length = 2 :=
  ⟨rfl, rfl⟩

/-- Closed form of the per-organization loop when every sub-call
succeeds: results in input order (oracle indices k, k+1, ...), one
request per organization with only its "query" key overwritten on the
shared base params, and no events. -/
theorem ror_multi_ok (oracle : Nat → TransportOutcome) (body : Nat → PyVal)
    (h : ∀ i, oracle i = .ok (body i)) :
    ∀ (orgs : List String) (k : Nat) (base : List (String × PyVal)),
      ror_multi oracle base orgs k
        = (.ok ((List.range' k orgs.length).map body),
           orgs.map (fun org => dictSet base "query" (PyVal.str org)), []) := by
  intro orgs
  induction orgs with
  | nil => intro k base; simp [ror_multi, List.range']
  | cons org rest ih =>
    intro k base
    simp only [ror_multi, h k, ror_call_api]
    rw [ih (k + 1) (dictSet base "query" (PyVal.str org))]
    have hcollapse : ∀ o ∈ rest,
        dictSet (dictSet base "query" (PyVal.str org)) "query" (PyVal.str o)
          = dictSet base "query" (PyVal.str o) :=
      fun o _ => dictSet_dictSet_same base "query" (PyVal.str org) (PyVal.str o)
    simp [List.range', List.map_congr_left hcollapse]

/-- C10: invoking the ROR query with a list of more than one
organization yields, when every sub-call succeeds, a mapping with the
single key "results" holding one result per organization in input
order; one request is made per organization, the i-th request's
"query" parameter is the i-th organization name, and the "filter"
parameter is shared identically by all sub-requests. -/
theorem c10_multi_org_fanout (orgs : List String)
    (status types cc cn con conn : Option String) (emitterPresent : Bool)
    (oracle : Nat → TransportOutcome) (body : Nat → PyVal)
    (h1 : orgs.length > 1) (h2 : ∀ i, oracle i = .ok (body i)) :
    (ror_query (some orgs) status types cc cn con conn emitterPresent oracle).ret
      = .ok (.dict [("results", .list ((List.range orgs.length).map body))]) ∧
    (ror_query (some orgs) status types cc cn con conn emitterPresent oracle).calls
      = orgs.map (fun org =>
          dictSet (rorQueryParams (some orgs) status types cc cn con conn) "query"
            (PyVal.str org)) ∧
    (∀ i, i < orgs.length →
      dictLookup ((ror_query (some orgs) status types cc cn con conn emitterPresent
          oracle).calls.getD i []) "query" = some (PyVal.str (orgs.getD i "")) ∧
      dictLookup ((ror_query (some orgs) status types cc cn con conn emitterPresent
          oracle).calls.getD i []) "filter"
        = dictLookup (rorQueryParams (some orgs) status types cc cn con conn) "filter") := by
  have hrun : ror_query (some orgs) status types cc cn con conn emitterPresent oracle
      = ⟨.ok (.dict [("results", .list ((List.range orgs.length).map body))]),
         orgs.map (fun org =>
           dictSet (rorQueryParams (some orgs) status types cc cn con conn) "query"
             (PyVal.str org)), []⟩ := by
    simp only [ror_query, h1, if_true, ite_true]
    rw [ror_multi_ok oracle body h2 orgs 0]
    rw [List.range_eq_range']
  refine ⟨by rw [hrun], by rw [hrun], ?_⟩
  intro i hi
  rw [hrun]
  have hgd : (orgs.map (fun org =>
      dictSet (rorQueryParams (some orgs) status types cc cn con conn) "query"
        (PyVal.str org))).getD i []
      = dictSet (rorQueryParams (some orgs) status types cc cn con conn) "query"
          (PyVal.str (orgs.getD i "")) := by
    rw [List.getD_eq_getElem?_getD, List.getElem?_map,
      List.getElem?_eq_getElem hi]
    simp [List.getD_eq_getElem?_getD, List.getElem?_eq_getElem hi]
  rw [hgd]
  exact ⟨dictLookup_dictSet_self _ _ _,
    dictLookup_dictSet_ne _ _ _ _ (by decide)⟩

/-- Witness for C10 at a concrete two-organization query. -/
theorem c10_multi_org_fanout_witness :
    (ror_query (some ["Oxford", "MIT"]) (some "active") Option.none Option.none
        Option.none Option.none Option.none true (fun i => .ok (PyVal.int i))).ret
      = .ok (.dict [("results",
          .list ((List.range (["Oxford", "MIT"] : List String).length).map
            (fun i => PyVal.int i)))]) :=
  (c10_multi_org_fanout ["Oxford", "MIT"] (some "active") Option.none Option.none
    Option.none Option.none Option.none true (fun i => .ok (PyVal.int i))
    (fun i => PyVal.int i) (by decide) (fun _ => rfl)).1

/-- Helper: every fetch_single_ticker run returns a single-entry dict
keyed by its own ticker, whatever the data type, outcome and extra
field. -/
theorem fetch_single_result_singleton (oracle : String → YfOutcome) (v : YfValves)
    (ticker : String) (sd ed : Option String) (dt : String) (p : Option String)
    (intv : String) (extra : Option String) (exd : Option PyVal) (ds de : String) :
    ∃ x, (fetch_single_ticker oracle v ticker sd ed dt p intv extra exd ds de).result
      = [(ticker, x)] := by
  rcases h : oracle ticker with d | m <;>
    by_cases h1 : dt = "history" <;>
    by_cases h2 : dt ∈ yfKnownTypes <;>
    simp [fetch_single_ticker, h, h1, h2]

/-- Helper: merging the per-ticker singleton results with dict.update
is the same as a fold of single-key writes. -/
theorem yf_combined_foldl (oracle : String → YfOutcome) (v : YfValves)
    (sd ed : Option String) (dt : String) (p : Option String) (intv : String)
    (extra : Option String) (exd : String → Option PyVal) (ds de : String)
    (g : String → PyVal)
    (hg : ∀ t, (fetch_single_ticker oracle v t sd ed dt p intv extra (exd t) ds de).result
      = [(t, g t)]) :
    ∀ (tickers : List String) (acc : List (String × PyVal)),
      ((tickers.map (fun t =>
          fetch_single_ticker oracle v t sd ed dt p intv extra (exd t) ds de)).foldl
        (fun acc r => dictUpDate acc r.result) acc)
      = tickers.foldl (fun a t => dictSet a t (g t)) acc := by
  intro tickers
  induction tickers with
  | nil => intro _; rfl
  | cons t rest ih =>
    intro acc
    simp only [List.map_cons, List.foldl_cons, hg t]
    exact ih _

/-- C5: fetch_yfinance_data over distinct tickers returns a combined
mapping keyed exactly by the requested tickers in order, every ticker
sub-fetch is attempted, each ticker is bound to its own sub-call
result, and a ticker whose provider call raises contributes
{ticker: {"error": message}} while every other ticker entry is still
present — one failure never removes another result. -/
theorem c5_yfinance_fanout (oracle : String → YfOutcome) (v : YfValves)
    (tickers : List String) (sd ed : Option String) (dt : String) (p : Option String)
    (intv : String) (extra : Option String) (exd : String → Option PyVal) (ds de : String)
    (hnd : tickers.Nodup) :
    ((fetch_yfinance_data oracle v tickers sd ed dt p intv extra exd ds de).combined.map
        Prod.fst = tickers) ∧
    ((fetch_yfinance_data oracle v tickers sd ed dt p intv extra exd ds de).attempted
        = tickers) ∧
    (∀ t ∈ tickers,
      dictLookup (fetch_yfinance_data oracle v tickers sd ed dt p intv extra exd
          ds de).combined t
        = dictLookup (fetch_single_ticker oracle v t sd ed dt p intv extra (exd t)
            ds de).result t) ∧
    (∀ t ∈ tickers, ∀ m, oracle t = .exn m → dt = "history" →
      dictLookup (fetch_yfinance_data oracle v tickers sd ed dt p intv extra exd
          ds de).combined t
        = some (.dict [("error", .str m)])) := by
  have hex : ∀ t, ∃ x,
      (fetch_single_ticker oracle v t sd ed dt p intv extra (exd t) ds de).result
        = [(t, x)] :=
    fun t => fetch_single_result_singleton oracle v t sd ed dt p intv extra (exd t) ds de
  choose g hg using hex
  have hcomb : (fetch_yfinance_data oracle v tickers sd ed dt p intv extra exd
      ds de).combined = tickers.foldl (fun a t => dictSet a t (g t)) [] := by
    simp only [fetch_yfinance_data]
    exact yf_combined_foldl oracle v sd ed dt p intv extra exd ds de g hg tickers []
  refine ⟨?_, rfl, ?_, ?_⟩
  · rw [hcomb]
    simpa using foldl_dictSet_keys g tickers [] hnd (by simp)
  · intro t ht
    rw [hcomb, foldl_dictSet_lookup g tickers [] t, if_pos ht, hg t]
    simp [dictLookup, List.find?]
  · intro t ht m hm hdt
    rw [hcomb, foldl_dictSet_lookup g tickers [] t, if_pos ht]
    have hres : ([(t, g t)] : List (String × PyVal))
        = [(t, PyVal.dict [("error", PyVal.str m)])] := by
      rw [← hg t]
      simp [fetch_single_ticker, hm, hdt]
    simp only [List.cons.injEq, Prod.mk.injEq] at hres
    rw [hres.1.2]

/-- Witness for C5 at the fan-out scenario of the spec: AAA raises,
BBB succeeds, and the combined dict still carries the AAA error entry. -/
theorem c5_yfinance_fanout_witness :
    dictLookup (fetch_yfinance_data
        (fun t => if t = "AAA" then .exn "boom" else .ok (PyVal.int 1)) {}
        ["AAA", "BBB"] Option.none Option.none "history" Option.none "1d"
        Option.none (fun _ => Option.none) "d0" "d1").combined "AAA"
      = some (.dict [("error", .str "boom")]) :=
  (c5_yfinance_fanout
      (fun t => if t = "AAA" then .exn "boom" else .ok (PyVal.int 1)) {}
      ["AAA", "BBB"] Option.none Option.none "history" Option.none "1d"
      Option.none (fun _ => Option.none) "d0" "d1" (by decide)).2.2.2 "AAA"
    (by decide) "boom" rfl rfl

/-- Witness for C7 at a concrete all-three-supplied combination. -/
theorem c7_history_priority_amended_witness :
    historyKwargs {} (some "2023-01-01") (some "2023-01-02") (some "1mo") "1d" "d0" "d1"
      = yfBaseKwargs {} "1d" ++
          [("start", optStr (some "2023-01-01")), ("end", optStr (some "2023-01-02"))] :=
  (c7_history_priority_amended {} (some "2023-01-01") (some "2023-01-02") (some "1mo")
    "1d" "d0" "d1").1 (by decide) (by decide)
